import Mathlib

/-!
Verification of the token cache and refresh coordinator of the kakao-qr-api
service (`src/core.rs`).  The handler `Handler::serve` is embedded below as a
pure function over an explicit cache state.  The two external effects that
`serve` triggers — `generate_token(false)` (soft refresh), `generate_token(true)`
(hard refresh, full browser login) and `qrcode_generator::to_png_to_vec`
(PNG rendering) — are modelled as oracles in an environment record, since their
bodies are network / browser automation.  The `async_std::sync::Mutex` around
`Cache` serializes the entire critical section, so a set of concurrent requests
is modelled as a sequential composition of `serve` calls (`serveSeq`).
Time is modelled in nanoseconds as `Nat`; `SystemTime::now()` becomes an
explicit `now` argument sampled once per request, exactly as in line 181 of
`core.rs`.
-/

namespace KakaoQR

/-- Fixed token TTL: `TOKEN_EXPIRES: f32 = 14` seconds (`core.rs` line 24),
turned into a `Duration` by `Duration::from_secs_f32`, here expressed in
nanoseconds. -/
def tokenExpires : Nat := 14000000000

/-- Default PNG size constant `DEFAULT_PNG_SIZE: u16 = 256` (`core.rs` line 23). -/
def DEFAULT_PNG_SIZE : Nat := 256

/-- Configuration record (`core.rs` lines 30-36).  Only `api_key` is read by
`serve`; the credentials and bind address are used elsewhere. -/
structure Config where
  kakao_id : String
  kakao_pw : String
  api_key : String
  bind : String
deriving Repr, DecidableEq

/-- The mutex-protected cache state (`core.rs` lines 38-43): the expiry
timestamp, the token string (empty string is the sentinel for "no token"), and
the per-size map of rendered PNG buffers, modelled as an association list from
size to byte list. -/
structure Cache where
  expires : Nat
  token : String
  map : List (Nat × List Nat)
deriving Repr, DecidableEq

/-- Environment of external effects for one request:
`soft` is the outcome of `generate_token(false)` (`none` models `Err`),
`hard` is the outcome of `generate_token(true)` (`none` models `Err`),
`render tok size` is the outcome of
`qrcode_generator::to_png_to_vec(tok, QrCodeEcc::Medium, size)`
(`none` models `Err`). -/
structure Env where
  soft : Option String
  hard : Option String
  render : String → Nat → Option (List Nat)

/-- An inbound HTTP request as `serve` observes it:
`isGet` is `req.method() == Method::GET`;
`apiKey` is the `X-API-KEY` header, where `none` models a header that is
absent or whose value fails `to_str()` (non-ASCII) — both are normalized to
the empty string by `unwrap_or` in `core.rs` lines 143-148;
`typ` and `size` are the `type` and `size` query parameters. -/
structure Req where
  isGet : Bool
  apiKey : Option String
  typ : Option String
  size : Option String
deriving Repr, DecidableEq

/-- Response status codes that `serve` can produce. -/
inductive Status where
  | notFound
  | unauthorized
  | badRequest
  | internalServerError
  | ok
deriving Repr, DecidableEq

/-- Response body: empty (error responses), plain text (token), or PNG bytes. -/
inductive Body where
  | empty
  | text (s : String)
  | png (b : List Nat)
deriving Repr, DecidableEq

/-- Result of one `serve` call: the HTTP status and body, the cache state left
behind in the mutex, and instrumentation — `refreshed` is true when the stale
branch (`core.rs` lines 182-201) was entered, `refreshOk` is false exactly when
a refresh was attempted and its hard tier failed (the 500 path of line 194),
and `renderCalls` counts invocations of the PNG renderer. -/
structure ServeResult where
  status : Status
  body : Body
  cache : Cache
  refreshed : Bool
  refreshOk : Bool
  renderCalls : Nat
deriving Repr, DecidableEq

/-- Decimal value of a list of characters, failing on any non-digit. -/
def digitsVal : List Char → Nat → Option Nat
  | [], acc => some acc
  | c :: rest, acc =>
    if c.isDigit then digitsVal rest (acc * 10 + (c.toNat - 48)) else none

/-- Rust `str::parse::<u16>()` (`core.rs` line 169): an optional leading `+`
followed by one or more ASCII digits, with the value required to fit in `u16`.
A leading minus sign, an empty string, non-digit characters, or a value above
65535 all fail. -/
def parseU16 (s : String) : Option Nat :=
  let cs := match s.toList with
    | '+' :: rest => rest
    | cs => cs
  match cs with
  | [] => none
  | _ =>
    match digitsVal cs 0 with
    | some n => if n < 65536 then some n else none
    | none => none

/-- Parsing of the `type` query parameter (`core.rs` lines 158-165):
`png` selects image mode, `txt` selects text mode, absent defaults to text
mode, and anything else is a 400 (`none` here). -/
def pngModeOf : Option String → Option Bool
  | some s => if s = "png" then some true else if s = "txt" then some false else none
  | none => some false

/-- Parsing of the `size` query parameter (`core.rs` lines 166-175): in text
mode the default constant is used without looking at `size`; in image mode an
absent `size` defaults, a present one must parse as `u16` else 400 (`none`). -/
def pngSizeOf (png_mode : Bool) : Option String → Option Nat
  | some s => if png_mode then parseU16 s else some DEFAULT_PNG_SIZE
  | none => some DEFAULT_PNG_SIZE

/-- The validation prefix of `serve` (`core.rs` lines 136-175), run before the
cache mutex is acquired: the method check (404), the `X-API-KEY` comparison
against the configured key with absent/unreadable headers normalized to the
empty string (401), and the `type` / `size` parses (400).  On success it
returns the pair (png_mode, png_size). -/
def validate (cfg : Config) (req : Req) : Except Status (Bool × Nat) :=
  if req.isGet = false then .error .notFound
  else
    let x_api_key := req.apiKey.getD ""
    if x_api_key ≠ cfg.api_key then .error .unauthorized
    else
      match pngModeOf req.typ with
      | none => .error .badRequest
      | some png_mode =>
        match pngSizeOf png_mode req.size with
        | none => .error .badRequest
        | some png_size => .ok (png_mode, png_size)

/-- Boolean form of "the request passes validation". -/
def validB (cfg : Config) (req : Req) : Bool :=
  match validate cfg req with
  | .ok _ => true
  | .error _ => false

/-- Outcome of the stale branch: the cache state it leaves behind and whether
it succeeded. -/
structure RefreshOut where
  cache : Cache
  ok : Bool
deriving Repr

/-- The refresh critical section (`core.rs` lines 182-201), entered when
`cache.expires < now`: clear the artifact map; if a prior token exists attempt
the soft refresh, overwriting the token with the result or with the empty
sentinel on failure (`unwrap_or(String::default())`, line 186); if the token is
(still) empty attempt the hard refresh, returning the mutated cache with
`ok := false` on failure (the early 500 return of line 194 — note the map stays
cleared and the token stays overwritten, while `expires` is untouched); on
success set `expires := now + TTL` (line 199). -/
def refreshStale (env : Env) (now : Nat) (cache : Cache) : RefreshOut :=
  let c1 : Cache := { cache with map := [] }
  let c2 : Cache := if c1.token ≠ "" then { c1 with token := env.soft.getD "" } else c1
  if c2.token = "" then
    match env.hard with
    | none => ⟨c2, false⟩
    | some t => ⟨{ c2 with token := t, expires := now + tokenExpires }, true⟩
  else
    ⟨{ c2 with expires := now + tokenExpires }, true⟩

/-- The response phase (`core.rs` lines 203-242), run with a non-stale cache:
text mode returns the token as the body; image mode looks the size up in the
artifact map, rendering and inserting on a miss (`core.rs` lines 213-229,
rendering failure is a 500 and inserts nothing), and serves the mapped
buffer. -/
def respond (env : Env) (cache : Cache) (png_mode : Bool) (png_size : Nat)
    (refreshed : Bool) : ServeResult :=
  if png_mode = false then
    ⟨.ok, .text cache.token, cache, refreshed, true, 0⟩
  else
    match cache.map.lookup png_size with
    | some b => ⟨.ok, .png b, cache, refreshed, true, 0⟩
    | none =>
      match env.render cache.token png_size with
      | none => ⟨.internalServerError, .empty, cache, refreshed, true, 1⟩
      | some b =>
        ⟨.ok, .png b, { cache with map := (png_size, b) :: cache.map }, refreshed, true, 1⟩

/-- The critical section under the cache mutex (`core.rs` lines 179-242):
sample `now`, refresh if stale (propagating the 500 on hard-refresh failure,
with the partially mutated cache left in the mutex), then respond. -/
def serveLocked (env : Env) (now : Nat) (cache : Cache) (png_mode : Bool)
    (png_size : Nat) : ServeResult :=
  if cache.expires < now then
    let r := refreshStale env now cache
    if r.ok = false then
      ⟨.internalServerError, .empty, r.cache, true, false, 0⟩
    else
      respond env r.cache png_mode png_size true
  else
    respond env cache png_mode png_size false

/-- `Handler::serve` (`core.rs` lines 109-243) as a pure function: validation,
then the mutex-guarded refresh-and-respond critical section. -/
def serve (cfg : Config) (env : Env) (now : Nat) (cache : Cache) (req : Req) :
    ServeResult :=
  match validate cfg req with
  | .error st => ⟨st, .empty, cache, false, true, 0⟩
  | .ok (png_mode, png_size) => serveLocked env now cache png_mode png_size

/-- Sequential composition of requests through the shared cache mutex: each
element pairs the `now` timestamp sampled after the request acquires the lock
with the request itself.  Returns the final cache state and the total number
of refresh attempts. -/
def serveSeq (cfg : Config) (env : Env) : Cache → List (Nat × Req) → Cache × Nat
  | c, [] => (c, 0)
  | c, q :: rest =>
    let res := serve cfg env q.1 c q.2
    let tail := serveSeq cfg env res.cache rest
    (tail.1, (if res.refreshed then 1 else 0) + tail.2)

/-- The artifact-cache coherence invariant: every entry of the map is the
rendering of the currently held token at the entry's size key. -/
def CacheInv (env : Env) (c : Cache) : Prop :=
  ∀ p ∈ c.map, env.render c.token p.1 = some p.2

/-- The response phase never changes the token. -/
theorem respond_token (env : Env) (c : Cache) (m : Bool) (sz : Nat) (r : Bool) :
    (respond env c m sz r).cache.token = c.token := by
  unfold respond
  split
  · rfl
  · split
    · rfl
    · split <;> rfl

/-- The response phase never changes the expiry timestamp. -/
theorem respond_expires (env : Env) (c : Cache) (m : Bool) (sz : Nat) (r : Bool) :
    (respond env c m sz r).cache.expires = c.expires := by
  unfold respond
  split
  · rfl
  · split
    · rfl
    · split <;> rfl

/-- The response phase reports the refresh flag it was given. -/
theorem respond_refreshed (env : Env) (c : Cache) (m : Bool) (sz : Nat) (r : Bool) :
    (respond env c m sz r).refreshed = r := by
  unfold respond
  split
  · rfl
  · split
    · rfl
    · split <;> rfl

/-- The response phase never reports a refresh failure. -/
theorem respond_refreshOk (env : Env) (c : Cache) (m : Bool) (sz : Nat) (r : Bool) :
    (respond env c m sz r).refreshOk = true := by
  unfold respond
  split
  · rfl
  · split
    · rfl
    · split <;> rfl

/-- The response phase never answers 401. -/
theorem respond_not_unauthorized (env : Env) (c : Cache) (m : Bool) (sz : Nat) (r : Bool) :
    (respond env c m sz r).status ≠ Status.unauthorized := by
  unfold respond
  split
  · simp
  · split
    · simp
    · split <;> simp

/-- The refresh critical section always leaves the artifact map cleared. -/
theorem refreshStale_map (env : Env) (now : Nat) (c : Cache) :
    (refreshStale env now c).cache.map = [] := by
  simp only [refreshStale]
  by_cases ht : c.token = "" <;>
    cases hs : env.soft <;>
    cases hh : env.hard <;>
    simp [ht, hs, hh] <;>
    split <;>
    simp_all

/-- On refresh failure the expiry timestamp is untouched. -/
theorem refreshStale_fail_expires (env : Env) (now : Nat) (c : Cache)
    (h : (refreshStale env now c).ok = false) :
    (refreshStale env now c).cache.expires = c.expires := by
  simp only [refreshStale] at h ⊢
  by_cases ht : c.token = "" <;>
    cases hs : env.soft <;>
    cases hh : env.hard <;>
    simp [ht, hs, hh] at h ⊢ <;>
    split at h <;>
    simp_all

/-- On refresh success the expiry timestamp is set to now plus the TTL. -/
theorem refreshStale_ok_expires (env : Env) (now : Nat) (c : Cache)
    (h : (refreshStale env now c).ok = true) :
    (refreshStale env now c).cache.expires = now + tokenExpires := by
  simp only [refreshStale] at h ⊢
  by_cases ht : c.token = "" <;>
    cases hs : env.soft <;>
    cases hh : env.hard <;>
    simp [ht, hs, hh] at h ⊢ <;>
    split at h <;>
    simp_all

/-- If the hard-refresh oracle answers, the refresh critical section succeeds. -/
theorem refreshStale_ok_of_hard (env : Env) (now : Nat) (c : Cache) (t : String)
    (hh : env.hard = some t) :
    (refreshStale env now c).ok = true := by
  simp only [refreshStale]
  by_cases ht : c.token = "" <;>
    cases hs : env.soft <;>
    simp [ht, hs, hh] <;>
    (try split) <;>
    simp_all

/-- If a prior token exists, the soft refresh fails and the hard refresh
answers `t`, the refresh critical section ends with token `t`, advanced expiry
and a cleared map. -/
theorem refreshStale_soft_fail_hard_ok (env : Env) (now : Nat) (c : Cache) (t : String)
    (ht : c.token ≠ "") (hs : env.soft = none) (hh : env.hard = some t) :
    refreshStale env now c = ⟨⟨now + tokenExpires, t, []⟩, true⟩ := by
  simp [refreshStale, ht, hs, hh]

/-- If a prior token exists and both refresh tiers fail, the refresh critical
section reports failure, leaving the expiry untouched but the token overwritten
with the empty sentinel and the map cleared. -/
theorem refreshStale_both_fail (env : Env) (now : Nat) (c : Cache)
    (ht : c.token ≠ "") (hs : env.soft = none) (hh : env.hard = none) :
    refreshStale env now c = ⟨⟨c.expires, "", []⟩, false⟩ := by
  simp [refreshStale, ht, hs, hh]

/-- Unfolding of `serve` on a request that passes validation. -/
theorem serve_validate_ok (cfg : Config) (env : Env) (now : Nat) (cache : Cache)
    (req : Req) (m : Bool) (sz : Nat) (hv : validate cfg req = .ok (m, sz)) :
    serve cfg env now cache req = serveLocked env now cache m sz := by
  unfold serve
  rw [hv]

/-- Unfolding of `serve` on a request that fails validation. -/
theorem serve_validate_error (cfg : Config) (env : Env) (now : Nat) (cache : Cache)
    (req : Req) (st : Status) (hv : validate cfg req = .error st) :
    serve cfg env now cache req = ⟨st, .empty, cache, false, true, 0⟩ := by
  unfold serve
  rw [hv]

/-- Unfolding of the critical section when the cached token is still valid. -/
theorem serveLocked_fresh (env : Env) (now : Nat) (c : Cache) (m : Bool) (sz : Nat)
    (h : ¬ c.expires < now) :
    serveLocked env now c m sz = respond env c m sz false := by
  unfold serveLocked
  rw [if_neg h]

/-- Unfolding of the critical section when the token is stale and the refresh
succeeds. -/
theorem serveLocked_stale_ok (env : Env) (now : Nat) (c : Cache) (m : Bool) (sz : Nat)
    (h : c.expires < now) (hok : (refreshStale env now c).ok = true) :
    serveLocked env now c m sz = respond env (refreshStale env now c).cache m sz true := by
  simp [serveLocked, h, hok]

/-- Unfolding of the critical section when the token is stale and the refresh
fails: the 500 response, with the partially mutated cache left behind. -/
theorem serveLocked_stale_fail (env : Env) (now : Nat) (c : Cache) (m : Bool) (sz : Nat)
    (h : c.expires < now) (hok : (refreshStale env now c).ok = false) :
    serveLocked env now c m sz =
      ⟨.internalServerError, .empty, (refreshStale env now c).cache, true, false, 0⟩ := by
  simp [serveLocked, h, hok]

/-- The critical section never answers 401. -/
theorem serveLocked_not_unauthorized (env : Env) (now : Nat) (c : Cache) (m : Bool)
    (sz : Nat) : (serveLocked env now c m sz).status ≠ Status.unauthorized := by
  simp only [serveLocked]
  split
  · split
    · simp
    · exact respond_not_unauthorized _ _ _ _ _
  · exact respond_not_unauthorized _ _ _ _ _

/-- A request served while the cached token is still valid triggers no refresh
and leaves the token and the expiry timestamp unchanged. -/
theorem serve_fresh (cfg : Config) (env : Env) (now : Nat) (cache : Cache) (req : Req)
    (h : ¬ cache.expires < now) :
    (serve cfg env now cache req).refreshed = false ∧
    (serve cfg env now cache req).cache.token = cache.token ∧
    (serve cfg env now cache req).cache.expires = cache.expires := by
  unfold serve
  split
  · exact ⟨rfl, rfl, rfl⟩
  · unfold serveLocked
    rw [if_neg h]
    exact ⟨respond_refreshed _ _ _ _ _, respond_token _ _ _ _ _, respond_expires _ _ _ _ _⟩

/-- A batch of requests that all acquire the lock while the cached token is
still valid triggers no refresh at all and leaves token and expiry unchanged. -/
theorem serveSeq_no_refresh (cfg : Config) (env : Env) (l : List (Nat × Req)) :
    ∀ c : Cache, (∀ q ∈ l, q.1 ≤ c.expires) →
      (serveSeq cfg env c l).2 = 0 ∧
      (serveSeq cfg env c l).1.token = c.token ∧
      (serveSeq cfg env c l).1.expires = c.expires := by
  induction l with
  | nil => exact fun c _ => ⟨rfl, rfl, rfl⟩
  | cons q rest ih =>
    intro c h
    have ht : q.1 ≤ c.expires := h q (List.mem_cons_self _ _)
    have hfresh := serve_fresh cfg env q.1 c q.2 (Nat.not_lt.mpr ht)
    have hrest : ∀ p ∈ rest, p.1 ≤ (serve cfg env q.1 c q.2).cache.expires := by
      intro p hp
      rw [hfresh.2.2]
      exact h p (List.mem_cons_of_mem _ hp)
    have ih2 := ih (serve cfg env q.1 c q.2).cache hrest
    simp only [serveSeq]
    refine ⟨?_, ?_, ?_⟩
    · rw [hfresh.1, ih2.1]
      simp
    · rw [ih2.2.1, hfresh.2.1]
    · rw [ih2.2.2, hfresh.2.2]

/-- C1: for a request arriving when the token is stale, if the soft refresh
fails but the hard refresh succeeds, then after the request the token equals
the hard-refresh result and the expiry equals the refresh timestamp plus the
fixed TTL. -/
theorem hard_refresh_after_soft_failure (cfg : Config) (env : Env) (now : Nat)
    (cache : Cache) (req : Req) (m : Bool) (sz : Nat) (t : String)
    (hv : validate cfg req = .ok (m, sz))
    (hstale : cache.expires < now)
    (hprior : cache.token ≠ "")
    (hsoft : env.soft = none)
    (hhard : env.hard = some t) :
    (serve cfg env now cache req).cache.token = t ∧
    (serve cfg env now cache req).cache.expires = now + tokenExpires := by
  have hok := refreshStale_ok_of_hard env now cache t hhard
  rw [serve_validate_ok cfg env now cache req m sz hv,
      serveLocked_stale_ok env now cache m sz hstale hok,
      refreshStale_soft_fail_hard_ok env now cache t hprior hsoft hhard]
  exact ⟨respond_token _ _ _ _ _, respond_expires _ _ _ _ _⟩

/-- C1 witness: a stale cache holding token `old`, failing soft refresh and a
hard refresh answering `newtok`. -/
theorem hard_refresh_after_soft_failure_witness :
    (serve ⟨"u", "p", "k", "b"⟩ ⟨none, some "newtok", fun _ _ => none⟩ 1
        ⟨0, "old", []⟩ ⟨true, some "k", none, none⟩).cache.token = "newtok" ∧
    (serve ⟨"u", "p", "k", "b"⟩ ⟨none, some "newtok", fun _ _ => none⟩ 1
        ⟨0, "old", []⟩ ⟨true, some "k", none, none⟩).cache.expires = 1 + tokenExpires :=
  hard_refresh_after_soft_failure ⟨"u", "p", "k", "b"⟩
    ⟨none, some "newtok", fun _ _ => none⟩ 1 ⟨0, "old", []⟩
    ⟨true, some "k", none, none⟩ false 256 "newtok" rfl (by decide)
    (by decide) rfl rfl

/-- C2 counterexample: a stale cache holding the non-empty token `abc`; both
refresh tiers fail.  The response is 500 and `expires` is untouched, but the
prior token is not retained: the failed soft refresh overwrote it with the
empty sentinel. -/
theorem both_fail_clears_prior_token_cex :
    (serve ⟨"u", "p", "k", "b"⟩ ⟨none, none, fun _ _ => none⟩ 1 ⟨0, "abc", []⟩
        ⟨true, some "k", none, none⟩).status = Status.internalServerError ∧
    (serve ⟨"u", "p", "k", "b"⟩ ⟨none, none, fun _ _ => none⟩ 1 ⟨0, "abc", []⟩
        ⟨true, some "k", none, none⟩).cache.expires = 0 ∧
    ¬ (serve ⟨"u", "p", "k", "b"⟩ ⟨none, none, fun _ _ => none⟩ 1 ⟨0, "abc", []⟩
        ⟨true, some "k", none, none⟩).cache.token = "abc" := by
  decide

/-- C2 amended: when the token is stale, the soft refresh is attempted and
fails and the hard refresh also fails, the response is 500 and `expires` is
not advanced, but the token afterwards is the empty sentinel (the failed soft
refresh overwrote the prior value) and the artifact map is cleared. -/
theorem both_fail_500_token_cleared (cfg : Config) (env : Env) (now : Nat)
    (cache : Cache) (req : Req) (m : Bool) (sz : Nat)
    (hv : validate cfg req = .ok (m, sz))
    (hstale : cache.expires < now)
    (hprior : cache.token ≠ "")
    (hsoft : env.soft = none)
    (hhard : env.hard = none) :
    (serve cfg env now cache req).status = .internalServerError ∧
    (serve cfg env now cache req).cache.expires = cache.expires ∧
    (serve cfg env now cache req).cache.token = "" ∧
    (serve cfg env now cache req).cache.map = [] := by
  have hfail : refreshStale env now cache = ⟨⟨cache.expires, "", []⟩, false⟩ :=
    refreshStale_both_fail env now cache hprior hsoft hhard
  have hokf : (refreshStale env now cache).ok = false := by rw [hfail]
  rw [serve_validate_ok cfg env now cache req m sz hv,
      serveLocked_stale_fail env now cache m sz hstale hokf, hfail]
  exact ⟨rfl, rfl, rfl, rfl⟩

/-- C2 amended witness: same concrete scenario as the counterexample. -/
theorem both_fail_500_token_cleared_witness :
    (serve ⟨"u", "p", "k", "b"⟩ ⟨none, none, fun _ _ => none⟩ 1 ⟨0, "abc", []⟩
        ⟨true, some "k", none, none⟩).status = Status.internalServerError ∧
    (serve ⟨"u", "p", "k", "b"⟩ ⟨none, none, fun _ _ => none⟩ 1 ⟨0, "abc", []⟩
        ⟨true, some "k", none, none⟩).cache.expires = (⟨0, "abc", []⟩ : Cache).expires ∧
    (serve ⟨"u", "p", "k", "b"⟩ ⟨none, none, fun _ _ => none⟩ 1 ⟨0, "abc", []⟩
        ⟨true, some "k", none, none⟩).cache.token = "" ∧
    (serve ⟨"u", "p", "k", "b"⟩ ⟨none, none, fun _ _ => none⟩ 1 ⟨0, "abc", []⟩
        ⟨true, some "k", none, none⟩).cache.map = [] :=
  both_fail_500_token_cleared ⟨"u", "p", "k", "b"⟩ ⟨none, none, fun _ _ => none⟩ 1
    ⟨0, "abc", []⟩ ⟨true, some "k", none, none⟩ false 256 rfl (by decide)
    (by decide) rfl rfl

/-- C3 counterexample: a request served from a still-valid cache (refresh
skipped) leaves `expires` at its prior value 5, which is not `now + TTL`. -/
theorem skip_does_not_write_expires_cex :
    (serve ⟨"u", "p", "k", "b"⟩ ⟨none, none, fun _ _ => none⟩ 3 ⟨5, "tok", []⟩
        ⟨true, some "k", none, none⟩).cache.expires = 5 ∧
    ¬ (5 : Nat) = 3 + tokenExpires := by
  decide

/-- C3 amended: `expires` is written only by a refresh attempt that completes
successfully, and then to the `now` sampled at lock acquisition plus the fixed
TTL; it is unchanged when the refresh attempt fails, and it is also unchanged
(not rewritten to now + TTL) when the refresh is skipped because the cached
value is still valid. -/
theorem expires_write_policy (cfg : Config) (env : Env) (now : Nat)
    (cache : Cache) (req : Req) (m : Bool) (sz : Nat)
    (hv : validate cfg req = .ok (m, sz)) :
    (¬ cache.expires < now → (serve cfg env now cache req).cache.expires = cache.expires) ∧
    (cache.expires < now → (refreshStale env now cache).ok = false →
      (serve cfg env now cache req).cache.expires = cache.expires) ∧
    (cache.expires < now → (refreshStale env now cache).ok = true →
      (serve cfg env now cache req).cache.expires = now + tokenExpires) := by
  refine ⟨?_, ?_, ?_⟩
  · intro h
    exact (serve_fresh cfg env now cache req h).2.2
  · intro h hok
    rw [serve_validate_ok cfg env now cache req m sz hv,
        serveLocked_stale_fail env now cache m sz h hok]
    exact refreshStale_fail_expires env now cache hok
  · intro h hok
    rw [serve_validate_ok cfg env now cache req m sz hv,
        serveLocked_stale_ok env now cache m sz h hok, respond_expires]
    exact refreshStale_ok_expires env now cache hok

/-- C3 witness: the skip case at a concrete still-valid cache: `expires`
stays 5. -/
theorem expires_write_policy_witness :
    (serve ⟨"u", "p", "k", "b"⟩ ⟨none, none, fun _ _ => none⟩ 3 ⟨5, "tok", []⟩
        ⟨true, some "k", none, none⟩).cache.expires = (⟨5, "tok", []⟩ : Cache).expires :=
  (expires_write_policy ⟨"u", "p", "k", "b"⟩ ⟨none, none, fun _ _ => none⟩ 3
    ⟨5, "tok", []⟩ ⟨true, some "k", none, none⟩ false 256 rfl).1 (by decide)

/-- The response phase preserves the artifact-cache coherence invariant: the
only insertion it performs stores the rendering of the current token. -/
theorem respond_inv (env : Env) (c : Cache) (m : Bool) (sz : Nat) (r : Bool)
    (h : CacheInv env c) : CacheInv env (respond env c m sz r).cache := by
  unfold respond
  split
  · exact h
  · cases hl : c.map.lookup sz with
    | some b =>
      simp only [hl]
      exact h
    | none =>
      simp only [hl]
      cases hr : env.render c.token sz with
      | none =>
        simp only [hr]
        exact h
      | some b =>
        simp only [hr]
        intro p hp
        rcases List.mem_cons.mp hp with hp | hp
        · subst hp
          exact hr
        · exact h p hp

/-- C4: the artifact-cache coherence invariant — every map entry is the
rendering of the currently held token at the entry's size key — is preserved
by every request, and a failed refresh attempt still leaves the map emptied. -/
theorem artifact_cache_coherent (cfg : Config) (env : Env) (now : Nat)
    (cache : Cache) (req : Req) (hinv : CacheInv env cache) :
    CacheInv env (serve cfg env now cache req).cache ∧
    ((serve cfg env now cache req).refreshOk = false →
      (serve cfg env now cache req).cache.map = []) ∧
    (cache.expires < now → (refreshStale env now cache).cache.map = []) := by
  refine and_assoc.mp ⟨?_, fun _ => refreshStale_map env now cache⟩
  cases hv : validate cfg req with
  | error st =>
    rw [serve_validate_error cfg env now cache req st hv]
    refine ⟨hinv, ?_⟩
    intro h
    simp at h
  | ok p =>
    obtain ⟨m, sz⟩ := p
    rw [serve_validate_ok cfg env now cache req m sz hv]
    by_cases hst : cache.expires < now
    · cases hok : (refreshStale env now cache).ok with
      | false =>
        rw [serveLocked_stale_fail env now cache m sz hst hok]
        refine ⟨?_, fun _ => refreshStale_map env now cache⟩
        intro p hp
        rw [refreshStale_map] at hp
        exact absurd hp (List.not_mem_nil p)
      | true =>
        rw [serveLocked_stale_ok env now cache m sz hst hok]
        refine ⟨?_, ?_⟩
        · apply respond_inv
          intro p hp
          rw [refreshStale_map] at hp
          exact absurd hp (List.not_mem_nil p)
        · rw [respond_refreshOk]
          intro h
          simp at h
    · rw [serveLocked_fresh env now cache m sz hst]
      refine ⟨respond_inv env cache m sz false hinv, ?_⟩
      rw [respond_refreshOk]
      intro h
      simp at h

/-- C4 witness: a fresh cache with one coherent artifact entry, served an
image request at a new size. -/
theorem artifact_cache_coherent_witness :
    CacheInv ⟨none, none, fun t s => some [s, t.length]⟩
      (serve ⟨"u", "p", "k", "b"⟩ ⟨none, none, fun t s => some [s, t.length]⟩ 3
        ⟨5, "tok", [(7, [7, 3])]⟩ ⟨true, some "k", some "png", some "9"⟩).cache ∧
    ((serve ⟨"u", "p", "k", "b"⟩ ⟨none, none, fun t s => some [s, t.length]⟩ 3
        ⟨5, "tok", [(7, [7, 3])]⟩ ⟨true, some "k", some "png", some "9"⟩).refreshOk = false →
      (serve ⟨"u", "p", "k", "b"⟩ ⟨none, none, fun t s => some [s, t.length]⟩ 3
        ⟨5, "tok", [(7, [7, 3])]⟩ ⟨true, some "k", some "png", some "9"⟩).cache.map = []) ∧
    ((⟨5, "tok", [(7, [7, 3])]⟩ : Cache).expires < 3 →
      (refreshStale ⟨none, none, fun t s => some [s, t.length]⟩ 3
        ⟨5, "tok", [(7, [7, 3])]⟩).cache.map = []) :=
  artifact_cache_coherent ⟨"u", "p", "k", "b"⟩ ⟨none, none, fun t s => some [s, t.length]⟩ 3
    ⟨5, "tok", [(7, [7, 3])]⟩ ⟨true, some "k", some "png", some "9"⟩
    (by intro p hp; simp at hp; subst hp; rfl)

/-- C5: when several requests queue on the cache mutex while the token is
stale — modelled as sequential execution of their critical sections, the
first at time `t1` observing the stale token, all later lock acquisitions
within the new TTL window — exactly one refresh attempt is executed across
the whole batch, and the final token is the one the single refresh installed. -/
theorem single_flight_refresh (cfg : Config) (env : Env) (cache : Cache)
    (t1 : Nat) (r1 : Req) (rest : List (Nat × Req)) (m : Bool) (sz : Nat) (tok : String)
    (hv1 : validate cfg r1 = .ok (m, sz))
    (hstale : cache.expires < t1)
    (hhard : env.hard = some tok)
    (hrest : ∀ q ∈ rest, q.1 ≤ t1 + tokenExpires) :
    (serveSeq cfg env cache ((t1, r1) :: rest)).2 = 1 ∧
    (serveSeq cfg env cache ((t1, r1) :: rest)).1.token =
      (serve cfg env t1 cache r1).cache.token := by
  have hok := refreshStale_ok_of_hard env t1 cache tok hhard
  have h1 : serve cfg env t1 cache r1 =
      respond env (refreshStale env t1 cache).cache m sz true := by
    rw [serve_validate_ok cfg env t1 cache r1 m sz hv1,
        serveLocked_stale_ok env t1 cache m sz hstale hok]
  have hexp : (serve cfg env t1 cache r1).cache.expires = t1 + tokenExpires := by
    rw [h1, respond_expires]
    exact refreshStale_ok_expires env t1 cache hok
  have hrefreshed : (serve cfg env t1 cache r1).refreshed = true := by
    rw [h1, respond_refreshed]
  have hrest2 : ∀ q ∈ rest, q.1 ≤ (serve cfg env t1 cache r1).cache.expires := by
    intro q hq
    rw [hexp]
    exact hrest q hq
  have hseq := serveSeq_no_refresh cfg env rest (serve cfg env t1 cache r1).cache hrest2
  constructor
  · simp only [serveSeq]
    rw [hrefreshed, hseq.1]
    simp
  · simp only [serveSeq]
    exact hseq.2.1

/-- C5 witness: three requests queued during one stale window; the refresh
count across the batch is one. -/
theorem single_flight_refresh_witness :
    (serveSeq ⟨"u", "p", "k", "b"⟩ ⟨none, some "tk", fun _ _ => none⟩ ⟨0, "", []⟩
      ((1, ⟨true, some "k", none, none⟩) ::
        [(2, ⟨true, some "k", none, none⟩), (3, ⟨true, some "k", none, none⟩)])).2 = 1 ∧
    (serveSeq ⟨"u", "p", "k", "b"⟩ ⟨none, some "tk", fun _ _ => none⟩ ⟨0, "", []⟩
      ((1, ⟨true, some "k", none, none⟩) ::
        [(2, ⟨true, some "k", none, none⟩), (3, ⟨true, some "k", none, none⟩)])).1.token =
      (serve ⟨"u", "p", "k", "b"⟩ ⟨none, some "tk", fun _ _ => none⟩ 1 ⟨0, "", []⟩
        ⟨true, some "k", none, none⟩).cache.token :=
  single_flight_refresh ⟨"u", "p", "k", "b"⟩ ⟨none, some "tk", fun _ _ => none⟩
    ⟨0, "", []⟩ 1 ⟨true, some "k", none, none⟩
    [(2, ⟨true, some "k", none, none⟩), (3, ⟨true, some "k", none, none⟩)]
    false 256 "tk" rfl (by decide) rfl (by decide)

/-- C6: two image-mode requests at the same size S within one TTL window,
starting from a cache with no artifact for S: both answer 200 with the same
PNG bytes, and the renderer runs exactly once across the pair (the second
request is served from the artifact map). -/
theorem image_render_once (cfg : Config) (env : Env) (t1 t2 : Nat) (cache : Cache)
    (r1 r2 : Req) (S : Nat) (b : List Nat)
    (hv1 : validate cfg r1 = .ok (true, S))
    (hv2 : validate cfg r2 = .ok (true, S))
    (hf1 : ¬ cache.expires < t1)
    (hf2 : ¬ cache.expires < t2)
    (hmiss : cache.map.lookup S = none)
    (hrender : env.render cache.token S = some b) :
    (serve cfg env t1 cache r1).status = .ok ∧
    (serve cfg env t1 cache r1).body = .png b ∧
    (serve cfg env t2 (serve cfg env t1 cache r1).cache r2).status = .ok ∧
    (serve cfg env t2 (serve cfg env t1 cache r1).cache r2).body = .png b ∧
    (serve cfg env t1 cache r1).renderCalls +
      (serve cfg env t2 (serve cfg env t1 cache r1).cache r2).renderCalls = 1 := by
  have h1 : serve cfg env t1 cache r1 =
      ⟨.ok, .png b, { cache with map := (S, b) :: cache.map }, false, true, 1⟩ := by
    rw [serve_validate_ok cfg env t1 cache r1 true S hv1,
        serveLocked_fresh env t1 cache true S hf1]
    unfold respond
    simp [hmiss, hrender]
  have h2 : serve cfg env t2 (serve cfg env t1 cache r1).cache r2 =
      ⟨.ok, .png b, { cache with map := (S, b) :: cache.map }, false, true, 0⟩ := by
    rw [h1]
    rw [serve_validate_ok cfg env t2 { cache with map := (S, b) :: cache.map } r2 true S hv2,
        serveLocked_fresh env t2 { cache with map := (S, b) :: cache.map } true S hf2]
    unfold respond
    simp [List.lookup]
  rw [h2, h1]
  exact ⟨rfl, rfl, rfl, rfl, rfl⟩

/-- C6 witness: two image requests at size 9 against a fresh cache with an
empty artifact map. -/
theorem image_render_once_witness :
    (serve ⟨"u", "p", "k", "b"⟩ ⟨none, none, fun t s => some [s, t.length]⟩ 3
        ⟨5, "tok", []⟩ ⟨true, some "k", some "png", some "9"⟩).status = Status.ok ∧
    (serve ⟨"u", "p", "k", "b"⟩ ⟨none, none, fun t s => some [s, t.length]⟩ 3
        ⟨5, "tok", []⟩ ⟨true, some "k", some "png", some "9"⟩).body = Body.png [9, 3] ∧
    (serve ⟨"u", "p", "k", "b"⟩ ⟨none, none, fun t s => some [s, t.length]⟩ 4
        (serve ⟨"u", "p", "k", "b"⟩ ⟨none, none, fun t s => some [s, t.length]⟩ 3
          ⟨5, "tok", []⟩ ⟨true, some "k", some "png", some "9"⟩).cache
        ⟨true, some "k", some "png", some "9"⟩).status = Status.ok ∧
    (serve ⟨"u", "p", "k", "b"⟩ ⟨none, none, fun t s => some [s, t.length]⟩ 4
        (serve ⟨"u", "p", "k", "b"⟩ ⟨none, none, fun t s => some [s, t.length]⟩ 3
          ⟨5, "tok", []⟩ ⟨true, some "k", some "png", some "9"⟩).cache
        ⟨true, some "k", some "png", some "9"⟩).body = Body.png [9, 3] ∧
    (serve ⟨"u", "p", "k", "b"⟩ ⟨none, none, fun t s => some [s, t.length]⟩ 3
        ⟨5, "tok", []⟩ ⟨true, some "k", some "png", some "9"⟩).renderCalls +
      (serve ⟨"u", "p", "k", "b"⟩ ⟨none, none, fun t s => some [s, t.length]⟩ 4
        (serve ⟨"u", "p", "k", "b"⟩ ⟨none, none, fun t s => some [s, t.length]⟩ 3
          ⟨5, "tok", []⟩ ⟨true, some "k", some "png", some "9"⟩).cache
        ⟨true, some "k", some "png", some "9"⟩).renderCalls = 1 :=
  image_render_once ⟨"u", "p", "k", "b"⟩ ⟨none, none, fun t s => some [s, t.length]⟩ 3 4
    ⟨5, "tok", []⟩ ⟨true, some "k", some "png", some "9"⟩
    ⟨true, some "k", some "png", some "9"⟩ 9 [9, 3] rfl rfl (by decide) (by decide)
    rfl rfl

/-- C7 counterexample: a valid-key `type=png` request with `size=0` is not
answered 400 — the `u16` parse accepts `0` — and the cache is touched: the
renderer result for size 0 is inserted into the artifact map. -/
theorem size_zero_accepted_cex :
    (serve ⟨"u", "p", "k", "b"⟩ ⟨none, none, fun _ s => some [s]⟩ 1 ⟨5, "tok", []⟩
        ⟨true, some "k", some "png", some "0"⟩).status = Status.ok ∧
    ¬ (serve ⟨"u", "p", "k", "b"⟩ ⟨none, none, fun _ s => some [s]⟩ 1 ⟨5, "tok", []⟩
        ⟨true, some "k", some "png", some "0"⟩).cache = ⟨5, "tok", []⟩ := by
  decide

/-- C7 amended: for a GET request with the correct key and `type=png`, a
`size` parameter that does not parse as a `u16` — non-numeric, negative, or
above 65535 — is answered 400 before the cache is touched; `0` parses as a
`u16` and is not rejected at this stage. -/
theorem invalid_size_rejected (cfg : Config) (env : Env) (now : Nat)
    (cache : Cache) (req : Req) (s : String)
    (hget : req.isGet = true)
    (hkey : req.apiKey.getD "" = cfg.api_key)
    (htyp : req.typ = some "png")
    (hsize : req.size = some s)
    (hbad : parseU16 s = none) :
    (serve cfg env now cache req).status = .badRequest ∧
    (serve cfg env now cache req).cache = cache ∧
    (serve cfg env now cache req).refreshed = false ∧
    (serve cfg env now cache req).renderCalls = 0 := by
  have hv : validate cfg req = .error .badRequest := by
    unfold validate
    simp [hget, hkey, htyp, hsize, pngModeOf, pngSizeOf, hbad]
  rw [serve_validate_error cfg env now cache req .badRequest hv]
  exact ⟨rfl, rfl, rfl, rfl⟩

/-- C7 amended witness: `size=-1` is rejected with 400 and no cache access. -/
theorem invalid_size_rejected_witness :
    (serve ⟨"u", "p", "k", "b"⟩ ⟨none, none, fun _ _ => none⟩ 1 ⟨5, "tok", []⟩
        ⟨true, some "k", some "png", some "-1"⟩).status = Status.badRequest ∧
    (serve ⟨"u", "p", "k", "b"⟩ ⟨none, none, fun _ _ => none⟩ 1 ⟨5, "tok", []⟩
        ⟨true, some "k", some "png", some "-1"⟩).cache = ⟨5, "tok", []⟩ ∧
    (serve ⟨"u", "p", "k", "b"⟩ ⟨none, none, fun _ _ => none⟩ 1 ⟨5, "tok", []⟩
        ⟨true, some "k", some "png", some "-1"⟩).refreshed = false ∧
    (serve ⟨"u", "p", "k", "b"⟩ ⟨none, none, fun _ _ => none⟩ 1 ⟨5, "tok", []⟩
        ⟨true, some "k", some "png", some "-1"⟩).renderCalls = 0 :=
  invalid_size_rejected ⟨"u", "p", "k", "b"⟩ ⟨none, none, fun _ _ => none⟩ 1
    ⟨5, "tok", []⟩ ⟨true, some "k", some "png", some "-1"⟩ "-1" rfl rfl rfl rfl
    (by decide)

/-- C8: a GET request whose `X-API-KEY` header (absent or unreadable headers
normalized to the empty string) differs from the configured key is answered
401, and the cache is untouched: no refresh, no rendering, no state change. -/
theorem invalid_api_key_401 (cfg : Config) (env : Env) (now : Nat)
    (cache : Cache) (req : Req)
    (hget : req.isGet = true)
    (hkey : req.apiKey.getD "" ≠ cfg.api_key) :
    (serve cfg env now cache req).status = .unauthorized ∧
    (serve cfg env now cache req).cache = cache ∧
    (serve cfg env now cache req).refreshed = false ∧
    (serve cfg env now cache req).renderCalls = 0 := by
  have hv : validate cfg req = .error .unauthorized := by
    unfold validate
    simp [hget, hkey]
  rw [serve_validate_error cfg env now cache req .unauthorized hv]
  exact ⟨rfl, rfl, rfl, rfl⟩

/-- C8 witness: a GET request with no `X-API-KEY` header against a non-empty
configured key. -/
theorem invalid_api_key_401_witness :
    (serve ⟨"u", "p", "k", "b"⟩ ⟨none, none, fun _ _ => none⟩ 1 ⟨0, "old", []⟩
        ⟨true, none, none, none⟩).status = Status.unauthorized ∧
    (serve ⟨"u", "p", "k", "b"⟩ ⟨none, none, fun _ _ => none⟩ 1 ⟨0, "old", []⟩
        ⟨true, none, none, none⟩).cache = ⟨0, "old", []⟩ ∧
    (serve ⟨"u", "p", "k", "b"⟩ ⟨none, none, fun _ _ => none⟩ 1 ⟨0, "old", []⟩
        ⟨true, none, none, none⟩).refreshed = false ∧
    (serve ⟨"u", "p", "k", "b"⟩ ⟨none, none, fun _ _ => none⟩ 1 ⟨0, "old", []⟩
        ⟨true, none, none, none⟩).renderCalls = 0 :=
  invalid_api_key_401 ⟨"u", "p", "k", "b"⟩ ⟨none, none, fun _ _ => none⟩ 1
    ⟨0, "old", []⟩ ⟨true, none, none, none⟩ rfl (by decide)

/-- C9: two text-mode requests served from a still-valid cache within the same
TTL window return byte-identical token bodies, and the first leaves the token
unchanged. -/
theorem text_idempotent_within_ttl (cfg : Config) (env : Env) (t1 t2 : Nat)
    (cache : Cache) (r1 r2 : Req) (sz1 sz2 : Nat)
    (hv1 : validate cfg r1 = .ok (false, sz1))
    (hv2 : validate cfg r2 = .ok (false, sz2))
    (hf1 : ¬ cache.expires < t1)
    (hf2 : ¬ cache.expires < t2) :
    (serve cfg env t1 cache r1).body = .text cache.token ∧
    (serve cfg env t2 (serve cfg env t1 cache r1).cache r2).body = .text cache.token ∧
    (serve cfg env t1 cache r1).cache.token = cache.token := by
  have h1 : serve cfg env t1 cache r1 = ⟨.ok, .text cache.token, cache, false, true, 0⟩ := by
    rw [serve_validate_ok cfg env t1 cache r1 false sz1 hv1,
        serveLocked_fresh env t1 cache false sz1 hf1]
    rfl
  have h2 : serve cfg env t2 (serve cfg env t1 cache r1).cache r2 =
      ⟨.ok, .text cache.token, cache, false, true, 0⟩ := by
    rw [h1]
    rw [serve_validate_ok cfg env t2 cache r2 false sz2 hv2,
        serveLocked_fresh env t2 cache false sz2 hf2]
    rfl
  rw [h2, h1]
  exact ⟨rfl, rfl, rfl⟩

/-- C9 witness: two text requests at times 3 and 4 against a cache valid
until 5. -/
theorem text_idempotent_within_ttl_witness :
    (serve ⟨"u", "p", "k", "b"⟩ ⟨none, none, fun _ _ => none⟩ 3 ⟨5, "tok", []⟩
        ⟨true, some "k", some "txt", none⟩).body = Body.text "tok" ∧
    (serve ⟨"u", "p", "k", "b"⟩ ⟨none, none, fun _ _ => none⟩ 4
        (serve ⟨"u", "p", "k", "b"⟩ ⟨none, none, fun _ _ => none⟩ 3 ⟨5, "tok", []⟩
          ⟨true, some "k", some "txt", none⟩).cache
        ⟨true, some "k", some "txt", none⟩).body = Body.text "tok" ∧
    (serve ⟨"u", "p", "k", "b"⟩ ⟨none, none, fun _ _ => none⟩ 3 ⟨5, "tok", []⟩
        ⟨true, some "k", some "txt", none⟩).cache.token = "tok" :=
  text_idempotent_within_ttl ⟨"u", "p", "k", "b"⟩ ⟨none, none, fun _ _ => none⟩ 3 4
    ⟨5, "tok", []⟩ ⟨true, some "k", some "txt", none⟩ ⟨true, some "k", some "txt", none⟩
    256 256 rfl rfl (by decide) (by decide)

/-- C10: if the configured API key is the empty string, a GET request with an
absent (or unreadable, normalized to `none` here) `X-API-KEY` header passes
the authentication check: the response is never 401. -/
theorem empty_key_absent_header_pass (cfg : Config) (env : Env) (now : Nat)
    (cache : Cache) (req : Req)
    (hcfg : cfg.api_key = "")
    (hget : req.isGet = true)
    (habs : req.apiKey = none) :
    (serve cfg env now cache req).status ≠ Status.unauthorized := by
  cases hv : validate cfg req with
  | ok p =>
    obtain ⟨m, sz⟩ := p
    rw [serve_validate_ok cfg env now cache req m sz hv]
    exact serveLocked_not_unauthorized env now cache m sz
  | error st =>
    have hst : st = Status.badRequest := by
      unfold validate at hv
      simp only [hget, habs, hcfg] at hv
      simp at hv
      cases hm : pngModeOf req.typ with
      | none =>
        rw [hm] at hv
        cases hv
        rfl
      | some b =>
        rw [hm] at hv
        dsimp only at hv
        cases hsz : pngSizeOf b req.size with
        | none =>
          rw [hsz] at hv
          cases hv
          rfl
        | some n =>
          rw [hsz] at hv
          cases hv
    rw [serve_validate_error cfg env now cache req st hv, hst]
    simp

/-- C10 witness: empty configured key, request with no `X-API-KEY` header. -/
theorem empty_key_absent_header_pass_witness :
    (serve ⟨"u", "p", "", "b"⟩ ⟨none, some "tk", fun _ _ => none⟩ 1 ⟨0, "", []⟩
        ⟨true, none, none, none⟩).status ≠ Status.unauthorized :=
  empty_key_absent_header_pass ⟨"u", "p", "", "b"⟩ ⟨none, some "tk", fun _ _ => none⟩ 1
    ⟨0, "", []⟩ ⟨true, none, none, none⟩ rfl rfl rfl

end KakaoQR
